import Mathlib

/-! Bridge registry (`bridges.go`).

A shallow embedding of the three static tables of `bridges.go` and of the three
accessor methods `NotificationTargets`, `FormatImage` and `TargetRepo`, followed by
the properties the specification states about them.

Go strings are embedded as Lean strings, Go maps with literal keys as association
lists searched with `List.lookup` (a Go map literal cannot repeat a constant key, so
first-match lookup is the map lookup), and process termination (`log.Fatalf`, the
panic of `template.Must`) as the error side of `Except`.
-/

set_option autoImplicit false

namespace Bridges

/-! ## Data model -/

/-- Go `type BeeperEnv string`. -/
abbrev BeeperEnv := String

/-- Go `type BeeperChannel string`. -/
abbrev BeeperChannel := String

/-- Go `type BridgeType string`. -/
abbrev BridgeType := String

def EnvDevelopment : BeeperEnv := "DEV"
def EnvStaging : BeeperEnv := "STAGING"
def EnvProduction : BeeperEnv := "PROD"

def ChannelStable : BeeperChannel := "STABLE"
def ChannelNightly : BeeperChannel := "NIGHTLY"
def ChannelInternal : BeeperChannel := "INTERNAL"

def BridgeTelegram : BridgeType := "telegram"
def BridgeTelegramV2 : BridgeType := "telegramv2"
def BridgeWhatsApp : BridgeType := "whatsapp"
def BridgeFacebook : BridgeType := "facebook"
def BridgeFacebookGo : BridgeType := "facebookgo"
def BridgeGoogleChat : BridgeType := "googlechat"
def BridgeGroupMe : BridgeType := "groupme"
def BridgeTwitter : BridgeType := "twitter"
def BridgeSignal : BridgeType := "signal"
def BridgeSignalV2 : BridgeType := "signalv2"
def BridgeInstagram : BridgeType := "instagram"
def BridgeInstagramGo : BridgeType := "instagramgo"
def BridgeMeta : BridgeType := "meta"
def BridgeDiscord : BridgeType := "discordgo"
def BridgeSlack : BridgeType := "slackgo"
def BridgeSlackV2 : BridgeType := "slackgov2"
def BridgeGoogleMessages : BridgeType := "gmessages"
def BridgeLinkedIn : BridgeType := "linkedin"
def BridgeiMessageCloud : BridgeType := "imessagecloud"
def BridgeiMessagego : BridgeType := "imessagego"
def BridgeHungryserv : BridgeType := "hungryserv"
def BridgeDummy : BridgeType := "dummybridge"
def BridgeDummyWebsocket : BridgeType := "dummybridgews"

/-- Modelled from the spec: the declaration of the struct `BridgeUpdateNotification`
is not part of `bridges.go`; only its composite literals are. The spec's
NotificationTarget is the tuple Environment, Channel, optional override BridgeType,
DeployNext flag. A field that a Go composite literal leaves out holds the zero value
of its type, which is `""` for `Bridge` and `false` for `DeployNext`. -/
structure BridgeUpdateNotification where
  Environment : BeeperEnv
  Channel : BeeperChannel
  Bridge : BridgeType := ""
  DeployNext : Bool := false
  deriving DecidableEq, Repr

/-- The ways a call can end the process instead of returning. -/
inductive Fatal where
  /-- `log.Fatalf("No Beeper notifications defined for %q", bridgeType)` -/
  | noNotifications (bridgeType : BridgeType)
  /-- The panic of `template.Must` on a template that does not parse. -/
  | templatePanic (bridgeType : BridgeType)
  /-- `log.Fatalf("Failed to format image for %q", bridgeType)` -/
  | formatImageFailed (bridgeType : BridgeType)
  deriving DecidableEq, Repr

deriving instance DecidableEq for Except

/-! ## Notification table -/

def defaultNotifications : List BridgeUpdateNotification :=
  [ { Environment := EnvDevelopment, Channel := ChannelStable },
    { Environment := EnvStaging, Channel := ChannelStable },
    { Environment := EnvProduction, Channel := ChannelInternal, DeployNext := true } ]

def bridgeNotifications : List (BridgeType × List BridgeUpdateNotification) :=
  [ (BridgeTelegram, defaultNotifications),
    (BridgeTelegramV2, defaultNotifications),
    (BridgeWhatsApp, defaultNotifications),
    (BridgeFacebook, defaultNotifications),
    (BridgeGoogleChat, defaultNotifications),
    (BridgeGroupMe, defaultNotifications),
    (BridgeTwitter, defaultNotifications),
    (BridgeSignal, []),
    (BridgeSignalV2,
      [ { Environment := EnvDevelopment, Channel := ChannelStable, Bridge := BridgeSignal },
        { Environment := EnvStaging, Channel := ChannelStable, Bridge := BridgeSignal },
        { Environment := EnvProduction, Channel := ChannelInternal, DeployNext := true,
          Bridge := BridgeSignal } ]),
    (BridgeInstagram, defaultNotifications),
    (BridgeiMessagego, defaultNotifications),
    (BridgeDiscord, defaultNotifications),
    (BridgeSlack, []),
    (BridgeSlackV2,
      [ { Environment := EnvDevelopment, Channel := ChannelStable, Bridge := BridgeSlack },
        { Environment := EnvStaging, Channel := ChannelStable, Bridge := BridgeSlack },
        { Environment := EnvProduction, Channel := ChannelInternal, DeployNext := true,
          Bridge := BridgeSlack } ]),
    (BridgeGoogleMessages, defaultNotifications),
    (BridgeLinkedIn, defaultNotifications),
    (BridgeHungryserv, defaultNotifications),
    (BridgeDummy,
      [ { Environment := EnvDevelopment, Channel := ChannelStable },
        { Environment := EnvDevelopment, Channel := ChannelStable,
          Bridge := BridgeDummyWebsocket },
        { Environment := EnvStaging, Channel := ChannelStable },
        { Environment := EnvStaging, Channel := ChannelStable,
          Bridge := BridgeDummyWebsocket } ]),
    (BridgeDummyWebsocket, []),
    (BridgeiMessageCloud,
      [ { Environment := EnvDevelopment, Channel := ChannelStable, DeployNext := true },
        { Environment := EnvStaging, Channel := ChannelStable, DeployNext := true },
        { Environment := EnvProduction, Channel := ChannelInternal, DeployNext := true } ]),
    (BridgeMeta,
      [ { Environment := EnvDevelopment, Channel := ChannelStable, Bridge := BridgeFacebookGo },
        { Environment := EnvStaging, Channel := ChannelStable, Bridge := BridgeFacebookGo },
        { Environment := EnvProduction, Channel := ChannelInternal, DeployNext := true,
          Bridge := BridgeFacebookGo },
        { Environment := EnvDevelopment, Channel := ChannelStable,
          Bridge := BridgeInstagramGo },
        { Environment := EnvStaging, Channel := ChannelStable, Bridge := BridgeInstagramGo },
        { Environment := EnvProduction, Channel := ChannelInternal, DeployNext := true,
          Bridge := BridgeInstagramGo } ]) ]

/-- `func (bridgeType BridgeType) NotificationTargets() []BridgeUpdateNotification`:
the table's sequence for `bridgeType`, or the fatal exit when the key is absent or
its sequence has length zero. -/
def NotificationTargets (bridgeType : BridgeType) :
    Except Fatal (List BridgeUpdateNotification) :=
  match bridgeNotifications.lookup bridgeType with
  | none => .error (.noNotifications bridgeType)
  | some notifications =>
    if notifications.length == 0 then .error (.noNotifications bridgeType)
    else .ok notifications

/-! ## `text/template`, on the fragment the image templates are written in

The image templates of `bridges.go` consist of literal text and actions of the form
`{{.Name}}`. `Parse` below accepts exactly that fragment of the template language
(an action is a field of the top-level value, optionally padded with spaces) and
reports every other action as a parse error; `Execute` evaluates a parsed template
against a `map[string]string`.
-/

/-- A node of a parsed template: literal text, or the action `{{.name}}`. -/
inductive Node where
  | text (chars : List Char)
  | field (name : String)
  deriving DecidableEq, Repr

/-- The lexer is either copying literal text or collecting the body of an action
(both accumulated in reverse); `textBrace` and `actionBrace` record that the
character just read was a single `{` in text, or a single `}` in an action, which
is the first half of a delimiter if the same character follows. -/
inductive LexState where
  | inText (acc : List Char)
  | textBrace (acc : List Char)
  | inAction (acc : List Char)
  | actionBrace (acc : List Char)
  deriving DecidableEq, Repr

/-- The space characters of the template lexer inside an action. -/
def isSpace (c : Char) : Bool :=
  c == ' ' || c == '\t' || c == '\r' || c == '\n'

/-- The lexer's `isAlphaNumeric`, on ASCII: a letter, a digit or an underscore. -/
def isAlphaNumeric (c : Char) : Bool :=
  c == '_' || c.isAlpha || c.isDigit

/-- Reads the body of an action (the text between `{{` and `}}`): spaces, a dot
followed by a field name that does not start with a digit, spaces. -/
def parseAction (body : List Char) : Option Node :=
  match ((body.dropWhile isSpace).reverse.dropWhile isSpace).reverse with
  | dot :: c :: cs =>
    if dot == '.' && !c.isDigit && (c :: cs).all isAlphaNumeric then
      some (.field (String.mk (c :: cs)))
    else none
  | _ => none

/-- A text node is emitted only for a non-empty run of literal text. -/
def pushText (acc : List Char) (out : List Node) : List Node :=
  if acc.isEmpty then out else .text acc.reverse :: out

/-- One pass over the template source: literal text runs up to the next `{{`, an
action runs up to the next `}}`. `out` holds the nodes read so far, in reverse. -/
def parseFrom : List Char → LexState → List Node → Except String (List Node)
  | [], .inText acc, out => .ok (pushText acc out).reverse
  | [], .textBrace acc, out => .ok (pushText ('{' :: acc) out).reverse
  | [], .inAction _, _ => .error "unclosed action"
  | [], .actionBrace _, _ => .error "unclosed action"
  | c :: rest, .inText acc, out =>
    if c == '{' then parseFrom rest (.textBrace acc) out
    else parseFrom rest (.inText (c :: acc)) out
  | c :: rest, .textBrace acc, out =>
    if c == '{' then parseFrom rest (.inAction []) (pushText acc out)
    else parseFrom rest (.inText (c :: '{' :: acc)) out
  | c :: rest, .inAction acc, out =>
    if c == '}' then parseFrom rest (.actionBrace acc) out
    else parseFrom rest (.inAction (c :: acc)) out
  | c :: rest, .actionBrace acc, out =>
    if c == '}' then
      match parseAction acc.reverse with
      | some node => parseFrom rest (.inText []) (node :: out)
      | none => .error "unexpected action"
    else parseFrom rest (.inAction (c :: '}' :: acc)) out

/-- `template.New("t").Parse(text)`: the node list of the template, or the parse
error. -/
def Parse (text : String) : Except String (List Node) :=
  parseFrom text.data (.inText []) []

/-- Evaluation of the field `.name` on a `map[string]string`: the value stored under
the key, and the text `<no value>` when the key is missing (the default `missingkey`
option). -/
def evalField (data : List (String × String)) (name : String) : List Char :=
  match data.lookup name with
  | some v => v.data
  | none => "<no value>".data

/-- What one node writes to the output buffer. -/
def execNode (data : List (String × String)) : Node → List Char
  | .text chars => chars
  | .field name => evalField data name

/-- `tmpl.Execute(&result, data)` into a `bytes.Buffer`: the nodes are written in
order. Neither a write to a `bytes.Buffer` nor a field of a `map[string]string`
can fail, so on this fragment the error result is never produced. -/
def Execute (tmpl : List Node) (data : List (String × String)) :
    Except String (List Char) :=
  .ok ((tmpl.map (execNode data)).flatten)

/-! ## Image templates -/

def DefaultImageTemplate : String := "{{.Image}}:{{.Commit}}-amd64"

def imageTemplateOverrides : List (BridgeType × String) :=
  [ (BridgeDummy, "{{.Image}}:{{.Commit}}"),
    (BridgeGroupMe, "{{.Image}}:{{.Commit}}"),
    (BridgeHungryserv, "{{.Image}}:{{.Commit}}"),
    (BridgeLinkedIn, "{{.Image}}:{{.Commit}}"),
    (BridgeiMessageCloud, "{{.Commit}}"),
    (BridgeiMessagego, "{{.Image}}:{{.Commit}}"),
    (BridgeSignalV2, "{{.Image}}:v2-{{.Commit}}-amd64"),
    (BridgeSlackV2, "{{.Image}}:v2-{{.Commit}}-amd64"),
    (BridgeTelegramV2, "{{.Image}}:v2-{{.Commit}}-amd64") ]

/-- The first three lines of `FormatImage`: the override of `bridgeType` when the
table has one, the default template otherwise. -/
def templateString (bridgeType : BridgeType) : String :=
  match imageTemplateOverrides.lookup bridgeType with
  | some t => t
  | none => DefaultImageTemplate

/-- `func (bridgeType BridgeType) FormatImage(image, commit string) string`. -/
def FormatImage (bridgeType : BridgeType) (image commit : String) : Except Fatal String :=
  match Parse (templateString bridgeType) with
  | .error _ => .error (.templatePanic bridgeType)
  | .ok tmpl =>
    match Execute tmpl [("Image", image), ("Commit", commit)] with
    | .error _ => .error (.formatImageFailed bridgeType)
    | .ok result => .ok (String.mk result)

/-! ## `fmt.Sprintf`, on string operands -/

/-- The text `fmt` appends for operands that no directive consumed. -/
def extraOperands : List String → List Char
  | [] => []
  | args => "%!(EXTRA ".data ++
      (", ".data).intercalate (args.map fun a => "string=".data ++ a.data) ++ [')']

/-- One directive applied to a string operand: `%s` and `%v` write the string, and
a verb that does not apply to strings writes `%!verb(string=operand)`. -/
def printArg (verb : Char) (arg : String) : List Char :=
  if verb == 's' || verb == 'v' then arg.data
  else '%' :: '!' :: verb :: ("(string=".data ++ arg.data ++ [')'])

/-- The loop of `fmt`'s `doPrintf` on string operands, for directives without flags,
width or precision: literal characters are copied, `%%` writes a percent sign, a
directive consumes the next operand, a directive without operand writes
`%!verb(MISSING)`, and a trailing `%` writes `%!(NOVERB)`. (The verbs `q`, `x` and
`X` and flagged directives are outside this model; the one format string of
`bridges.go` uses `%s` only.) -/
def doPrintf : List Char → List String → List Char
  | [], args => extraOperands args
  | c :: rest, args =>
    if c != '%' then c :: doPrintf rest args
    else
      match rest with
      | [] => "%!(NOVERB)".data ++ extraOperands args
      | verb :: rest' =>
        if verb == '%' then '%' :: doPrintf rest' args
        else
          match args with
          | [] => '%' :: '!' :: verb :: ("(MISSING)".data ++ doPrintf rest' [])
          | a :: args' => printArg verb a ++ doPrintf rest' args'

/-- `fmt.Sprintf(format, args...)` for string operands. -/
def Sprintf (format : String) (args : List String) : String :=
  String.mk (doPrintf format.data args)

/-! ## Target repositories -/

def DefaultTargetRepoTemplate : String := "%s/bridge/%s"

def targetImageRepoOverrides : List (BridgeType × String) :=
  [ (BridgeHungryserv, "/hungryserv"),
    (BridgeSignalV2, "/bridge/signal"),
    (BridgeSlackV2, "/bridge/slackgo"),
    (BridgeTelegramV2, "/bridge/telegramgo") ]

/-- `func (bridgeType BridgeType) TargetRepo(registry string) string`. -/
def TargetRepo (bridgeType : BridgeType) (registry : String) : String :=
  match targetImageRepoOverrides.lookup bridgeType with
  | none => Sprintf DefaultTargetRepoTemplate [registry, bridgeType]
  | some repo => registry ++ repo

/-! ## Definitions used to state the properties -/

/-- The spec's effective BridgeType of a notification entry filed under `key`: the
entry's override bridge when the entry sets one, and `key` itself when it sets
none. -/
def effectiveBridge (key : BridgeType) (e : BridgeUpdateNotification) : BridgeType :=
  if e.Bridge = "" then key else e.Bridge

/-- The names of the substitution points of a parsed template, in order. -/
def placeholders : List Node → List String
  | [] => []
  | .text _ :: rest => placeholders rest
  | .field name :: rest => name :: placeholders rest

/-- The spec's shape of an image template: it parses, and it has exactly two
substitution points, one named Image and one named Commit. -/
def hasImageAndCommit (template : String) : Bool :=
  match Parse template with
  | .error _ => false
  | .ok nodes =>
    (placeholders nodes).length == 2 &&
      (placeholders nodes).count "Image" == 1 && (placeholders nodes).count "Commit" == 1

/-- The constants of the `BridgeType` const block, in the order of declaration. -/
def declaredBridgeTypes : List BridgeType :=
  [ BridgeTelegram, BridgeTelegramV2, BridgeWhatsApp, BridgeFacebook, BridgeFacebookGo,
    BridgeGoogleChat, BridgeGroupMe, BridgeTwitter, BridgeSignal, BridgeSignalV2,
    BridgeInstagram, BridgeInstagramGo, BridgeMeta, BridgeDiscord, BridgeSlack,
    BridgeSlackV2, BridgeGoogleMessages, BridgeLinkedIn, BridgeiMessageCloud,
    BridgeiMessagego, BridgeHungryserv, BridgeDummy, BridgeDummyWebsocket ]

/-- The pairing of environment, channel and DeployNext flag that the entries of the
notification table follow: the channel is internal exactly for production and stable
otherwise, so never nightly, and a production entry has DeployNext set. -/
def channelFollowsEnvironment (e : BridgeUpdateNotification) : Prop :=
  (e.Channel = ChannelInternal ↔ e.Environment = EnvProduction) ∧
    (e.Channel = ChannelStable ↔ e.Environment ≠ EnvProduction) ∧
    e.Channel ≠ ChannelNightly ∧
    (e.Environment = EnvProduction → e.DeployNext = true)

instance (e : BridgeUpdateNotification) : Decidable (channelFollowsEnvironment e) := by
  unfold channelFollowsEnvironment
  infer_instance

/-! ## Lookup in the static tables -/

theorem lookup_some_mem {β : Type} (k : String) (v : β) :
    ∀ l : List (String × β), l.lookup k = some v → (k, v) ∈ l
  | [], h => by simp at h
  | (a, b) :: l, h => by
    by_cases hk : k = a
    · subst hk
      simp only [List.lookup_cons_self, Option.some.injEq] at h
      simp [h]
    · have hne : (k == a) = false := by simpa using hk
      simp only [List.lookup_cons, hne] at h
      exact List.mem_cons_of_mem _ (lookup_some_mem k v l h)

/-! ## Properties of `NotificationTargets` -/

theorem notificationTargets_ok_lookup (bt : BridgeType) (l : List BridgeUpdateNotification)
    (h : NotificationTargets bt = .ok l) : bridgeNotifications.lookup bt = some l := by
  unfold NotificationTargets at h
  split at h
  · exact absurd h (by simp)
  · split at h
    · exact absurd h (by simp)
    · rename_i n heq _
      rw [heq]
      exact congrArg some (Except.ok.inj h)

/-- C1: for every BridgeType value (any string), NotificationTargets halts with the
fatal missing-configuration error, reporting the offending value, if and only if the
value is absent from the notification table or present with a sequence of length
zero; and it returns normally exactly in every other case. -/
theorem notificationTargets_fatal_iff (bt : BridgeType) :
    (NotificationTargets bt = .error (.noNotifications bt) ↔
      (bridgeNotifications.lookup bt = none ∨
        ∃ l, bridgeNotifications.lookup bt = some l ∧ l.length = 0)) ∧
    ((∃ l, NotificationTargets bt = .ok l) ↔
      ¬ (bridgeNotifications.lookup bt = none ∨
        ∃ l, bridgeNotifications.lookup bt = some l ∧ l.length = 0)) := by
  unfold NotificationTargets
  cases hl : bridgeNotifications.lookup bt with
  | none => simp
  | some l =>
    by_cases h0 : l = []
    · simp [h0]
    · simp [h0]

/-- C2: NotificationTargets of telegram succeeds with exactly three entries, in the
order (development, stable, DeployNext false), (staging, stable, DeployNext false),
(production, internal, DeployNext true), and every other bridge type bound to the
shared default list gets the same sequence. -/
theorem notificationTargets_default_list :
    NotificationTargets BridgeTelegram = .ok
      [ { Environment := EnvDevelopment, Channel := ChannelStable, Bridge := "",
          DeployNext := false },
        { Environment := EnvStaging, Channel := ChannelStable, Bridge := "",
          DeployNext := false },
        { Environment := EnvProduction, Channel := ChannelInternal, Bridge := "",
          DeployNext := true } ] ∧
    ∀ bt ∈ [BridgeTelegramV2, BridgeWhatsApp, BridgeFacebook, BridgeGoogleChat,
        BridgeGroupMe, BridgeTwitter, BridgeInstagram, BridgeiMessagego, BridgeDiscord,
        BridgeGoogleMessages, BridgeLinkedIn, BridgeHungryserv],
      NotificationTargets bt = NotificationTargets BridgeTelegram := by
  decide

/-- C3, as stated, fails: NotificationTargets of telegram succeeds and its first
element has an empty bridge field, which is not the effective BridgeType telegram. -/
theorem notificationTargets_bridge_not_defaulted :
    ∃ l e, NotificationTargets BridgeTelegram = .ok l ∧ l.head? = some e ∧
      e.Bridge = "" ∧ e.Bridge ≠ effectiveBridge BridgeTelegram e :=
  ⟨defaultNotifications, { Environment := EnvDevelopment, Channel := ChannelStable },
    by decide, by decide, by decide, by decide⟩

/-- C3, amended: when NotificationTargets succeeds it returns the table's sequence
for that key unchanged, so a returned element's bridge field is the entry's override
bridge when the entry sets one and is empty when it sets none; the effective
BridgeType computed from a returned element (override if set, else the key) is never
empty. -/
theorem notificationTargets_returns_table_entries (bt : BridgeType)
    (l : List BridgeUpdateNotification) (h : NotificationTargets bt = .ok l) :
    bridgeNotifications.lookup bt = some l ∧
      ∀ e ∈ l, effectiveBridge bt e ≠ "" ∧
        (e.Bridge = "" ∨ e.Bridge = effectiveBridge bt e) := by
  have hl := notificationTargets_ok_lookup bt l h
  refine ⟨hl, ?_⟩
  have hm := lookup_some_mem bt l _ hl
  simp only [bridgeNotifications, List.mem_cons, Prod.mk.injEq, List.mem_nil_iff,
    or_false] at hm
  rcases hm with h | h | h | h | h | h | h | h | h | h | h | h | h | h | h | h | h | h |
    h | h | h <;> obtain ⟨rfl, rfl⟩ := h <;> decide

theorem notificationTargets_returns_table_entries_witness :
    NotificationTargets BridgeSignalV2 = .ok
        [ { Environment := EnvDevelopment, Channel := ChannelStable, Bridge := BridgeSignal },
          { Environment := EnvStaging, Channel := ChannelStable, Bridge := BridgeSignal },
          { Environment := EnvProduction, Channel := ChannelInternal, DeployNext := true,
            Bridge := BridgeSignal } ] ∧
      effectiveBridge BridgeSignalV2
        { Environment := EnvDevelopment, Channel := ChannelStable, Bridge := BridgeSignal }
        ≠ "" :=
  ⟨by decide,
    ((notificationTargets_returns_table_entries BridgeSignalV2
      [ { Environment := EnvDevelopment, Channel := ChannelStable, Bridge := BridgeSignal },
        { Environment := EnvStaging, Channel := ChannelStable, Bridge := BridgeSignal },
        { Environment := EnvProduction, Channel := ChannelInternal, DeployNext := true,
          Bridge := BridgeSignal } ] (by decide)).2
      { Environment := EnvDevelopment, Channel := ChannelStable, Bridge := BridgeSignal }
      (by decide)).1⟩

/-! ## Properties of `FormatImage` -/

theorem parse_default :
    Parse "{{.Image}}:{{.Commit}}-amd64" =
      .ok [.field "Image", .text [':'], .field "Commit", .text "-amd64".data] := by
  decide

theorem parse_plain :
    Parse "{{.Image}}:{{.Commit}}" = .ok [.field "Image", .text [':'], .field "Commit"] := by
  decide

theorem parse_commit : Parse "{{.Commit}}" = .ok [.field "Commit"] := by
  decide

theorem parse_v2 :
    Parse "{{.Image}}:v2-{{.Commit}}-amd64" =
      .ok [.field "Image", .text ":v2-".data, .field "Commit", .text "-amd64".data] := by
  decide

/-- What `FormatImage` returns, by the template it selects. -/
theorem formatImage_of_template (bt : BridgeType) (image commit : String) :
    (templateString bt = "{{.Image}}:{{.Commit}}-amd64" →
      FormatImage bt image commit = .ok (image ++ ":" ++ commit ++ "-amd64")) ∧
    (templateString bt = "{{.Image}}:{{.Commit}}" →
      FormatImage bt image commit = .ok (image ++ ":" ++ commit)) ∧
    (templateString bt = "{{.Commit}}" → FormatImage bt image commit = .ok commit) ∧
    (templateString bt = "{{.Image}}:v2-{{.Commit}}-amd64" →
      FormatImage bt image commit = .ok (image ++ ":v2-" ++ commit ++ "-amd64")) := by
  refine ⟨fun h => ?_, fun h => ?_, fun h => ?_, fun h => ?_⟩
  · simp only [FormatImage, h, parse_default, Execute, List.map, execNode, evalField]
    simp [List.lookup, String.ext_iff]
  · simp only [FormatImage, h, parse_plain, Execute, List.map, execNode, evalField]
    simp [List.lookup, String.ext_iff]
  · simp only [FormatImage, h, parse_commit, Execute, List.map, execNode, evalField]
    simp [List.lookup, String.ext_iff]
  · simp only [FormatImage, h, parse_v2, Execute, List.map, execNode, evalField]
    simp [List.lookup, String.ext_iff]

/-- The template `FormatImage` selects is one of four strings, by the bridge type. -/
theorem templateString_cases (bt : BridgeType) :
    (imageTemplateOverrides.lookup bt = none ∧
      templateString bt = "{{.Image}}:{{.Commit}}-amd64") ∨
    (bt ∈ [BridgeDummy, BridgeGroupMe, BridgeHungryserv, BridgeLinkedIn, BridgeiMessagego] ∧
      templateString bt = "{{.Image}}:{{.Commit}}") ∨
    (bt = BridgeiMessageCloud ∧ templateString bt = "{{.Commit}}") ∨
    (bt ∈ [BridgeSignalV2, BridgeSlackV2, BridgeTelegramV2] ∧
      templateString bt = "{{.Image}}:v2-{{.Commit}}-amd64") := by
  unfold templateString
  cases hl : imageTemplateOverrides.lookup bt with
  | none => exact Or.inl ⟨rfl, rfl⟩
  | some t =>
    have hm := lookup_some_mem bt t _ hl
    simp only [imageTemplateOverrides, List.mem_cons, Prod.mk.injEq, List.mem_nil_iff,
      or_false] at hm
    rcases hm with h | h | h | h | h | h | h | h | h <;> obtain ⟨rfl, rfl⟩ := h <;> decide

/-- C4: for a BridgeType without entry in the image-template override table (any
string), FormatImage returns exactly image, a colon, commit and the suffix -amd64. -/
theorem formatImage_default (bt : BridgeType) (image commit : String)
    (h : imageTemplateOverrides.lookup bt = none) :
    FormatImage bt image commit = .ok (image ++ ":" ++ commit ++ "-amd64") := by
  have ht : templateString bt = "{{.Image}}:{{.Commit}}-amd64" := by
    unfold templateString
    rw [h]
    rfl
  exact (formatImage_of_template bt image commit).1 ht

theorem formatImage_default_witness :
    imageTemplateOverrides.lookup BridgeTelegram = none ∧
      FormatImage BridgeTelegram "img" "abc123" = .ok "img:abc123-amd64" :=
  ⟨by decide, formatImage_default BridgeTelegram "img" "abc123" (by decide)⟩

/-- C5: for signalv2, slackgov2 and telegramv2, whose override template carries the
literal v2 marker, FormatImage returns exactly image, the text :v2-, commit and the
text -amd64, with nothing before or after. -/
theorem formatImage_v2 (image commit : String) :
    FormatImage BridgeSignalV2 image commit = .ok (image ++ ":v2-" ++ commit ++ "-amd64") ∧
    FormatImage BridgeSlackV2 image commit = .ok (image ++ ":v2-" ++ commit ++ "-amd64") ∧
    FormatImage BridgeTelegramV2 image commit =
      .ok (image ++ ":v2-" ++ commit ++ "-amd64") :=
  ⟨(formatImage_of_template BridgeSignalV2 image commit).2.2.2 (by decide),
    (formatImage_of_template BridgeSlackV2 image commit).2.2.2 (by decide),
    (formatImage_of_template BridgeTelegramV2 image commit).2.2.2 (by decide)⟩

theorem string_append_right_cancel (a b c : String) (h : a ++ b = a ++ c) : b = c := by
  have hd := congrArg String.data h
  simp only [String.data_append] at hd
  exact String.ext (List.append_cancel_left hd)

theorem string_append_left_cancel (a b c : String) (h : a ++ c = b ++ c) : a = b := by
  have hd := congrArg String.data h
  simp only [String.data_append] at hd
  exact String.ext (List.append_cancel_right hd)

/-- C6: FormatImage is injective in commit, for every BridgeType value and every
image. -/
theorem formatImage_injective_commit (bt : BridgeType) (image c1 c2 : String)
    (h : FormatImage bt image c1 = FormatImage bt image c2) : c1 = c2 := by
  have f1 := formatImage_of_template bt image c1
  have f2 := formatImage_of_template bt image c2
  rcases templateString_cases bt with ⟨_, ht⟩ | ⟨_, ht⟩ | ⟨_, ht⟩ | ⟨_, ht⟩
  · rw [f1.1 ht, f2.1 ht] at h
    have h1 := string_append_left_cancel _ _ _ (Except.ok.inj h)
    exact string_append_right_cancel _ _ _ h1
  · rw [f1.2.1 ht, f2.2.1 ht] at h
    exact string_append_right_cancel _ _ _ (Except.ok.inj h)
  · rw [f1.2.2.1 ht, f2.2.2.1 ht] at h
    exact Except.ok.inj h
  · rw [f1.2.2.2 ht, f2.2.2.2 ht] at h
    have h1 := string_append_left_cancel _ _ _ (Except.ok.inj h)
    exact string_append_right_cancel _ _ _ h1

theorem formatImage_injective_commit_witness :
    FormatImage BridgeiMessageCloud "img" "abc123" =
        FormatImage BridgeiMessageCloud "img" "abc123" ∧
      FormatImage BridgeiMessageCloud "img" "abc123" = .ok "abc123" ∧
      "abc123" = "abc123" :=
  ⟨rfl, by decide, formatImage_injective_commit BridgeiMessageCloud "img" "abc123" "abc123" rfl⟩

/-- C7, as stated, fails: the override template of imessagecloud is in the table
FormatImage selects from, and its only substitution point is Commit. -/
theorem imessagecloud_template_has_no_image :
    imageTemplateOverrides.lookup BridgeiMessageCloud = some "{{.Commit}}" ∧
      (Parse (templateString BridgeiMessageCloud)).map placeholders = .ok ["Commit"] ∧
      hasImageAndCommit (templateString BridgeiMessageCloud) = false := by
  decide

/-- C7, amended: every template FormatImage can select parses and has one
substitution point for Commit and no substitution point other than Image and Commit;
it has exactly the two points Image and Commit, in this order, for every BridgeType
value except imessagecloud, whose template has the Commit point only. -/
theorem template_placeholders (bt : BridgeType) :
    (Parse (templateString bt)).map placeholders =
        .ok (if bt = BridgeiMessageCloud then ["Commit"] else ["Image", "Commit"]) ∧
      hasImageAndCommit (templateString bt) = !(bt == BridgeiMessageCloud) := by
  rcases templateString_cases bt with ⟨hn, ht⟩ | ⟨hm, ht⟩ | ⟨hm, ht⟩ | ⟨hm, ht⟩
  · have hne : bt ≠ BridgeiMessageCloud := by
      intro hb
      rw [hb] at hn
      exact absurd hn (by decide)
    have hb : (bt == BridgeiMessageCloud) = false := by simpa using hne
    rw [ht, if_neg hne, hb]
    decide
  · simp only [List.mem_cons, List.mem_nil_iff, or_false] at hm
    rcases hm with rfl | rfl | rfl | rfl | rfl <;> decide
  · subst hm
    decide
  · simp only [List.mem_cons, List.mem_nil_iff, or_false] at hm
    rcases hm with rfl | rfl | rfl <;> decide

/-! ## Properties of `TargetRepo` -/

/-- The default pattern, written out: the registry, the text /bridge/ and the second
operand. -/
theorem sprintf_default (registry bt : String) :
    Sprintf DefaultTargetRepoTemplate [registry, bt] = registry ++ "/bridge/" ++ bt := by
  simp [Sprintf, DefaultTargetRepoTemplate, doPrintf, printArg, extraOperands,
    String.ext_iff]

/-- C8: for a BridgeType without entry in the target-repo override table (any
string) and every registry, TargetRepo returns exactly the registry, the text
/bridge/ and the BridgeType's string. -/
theorem targetRepo_default (bt : BridgeType) (registry : String)
    (h : targetImageRepoOverrides.lookup bt = none) :
    TargetRepo bt registry = registry ++ "/bridge/" ++ bt := by
  unfold TargetRepo
  rw [h]
  exact sprintf_default registry bt

theorem targetRepo_default_witness :
    targetImageRepoOverrides.lookup BridgeTelegram = none ∧
      TargetRepo BridgeTelegram "ghcr.io/beeper" = "ghcr.io/beeper/bridge/telegram" :=
  ⟨by decide, targetRepo_default BridgeTelegram "ghcr.io/beeper" (by decide)⟩

/-- C9, as stated, fails: for hungryserv and the registry ghcr.io/bridge the result
is ghcr.io/bridge/hungryserv, which does contain the bridge type's own string
appended after /bridge/ (it is what the default pattern gives for the registry
ghcr.io). -/
theorem targetRepo_override_may_contain_default_form :
    targetImageRepoOverrides.lookup BridgeHungryserv = some "/hungryserv" ∧
      TargetRepo BridgeHungryserv "ghcr.io/bridge" = "ghcr.io/bridge/hungryserv" ∧
      ("/bridge/" ++ BridgeHungryserv).data <:+
        (TargetRepo BridgeHungryserv "ghcr.io/bridge").data ∧
      TargetRepo BridgeHungryserv "ghcr.io/bridge" =
        Sprintf DefaultTargetRepoTemplate ["ghcr.io", BridgeHungryserv] :=
  ⟨by decide, by decide, ⟨"ghcr.io".data, by decide⟩, by decide⟩

/-- C9, amended: for a BridgeType with an entry s in the target-repo override table
(hungryserv, signalv2, slackgov2, telegramv2) and every registry, TargetRepo returns
exactly the registry followed by s, and this is not what the default pattern gives
for the same registry and BridgeType (the registry, /bridge/ and the BridgeType's
string). -/
theorem targetRepo_override (bt : BridgeType) (s registry : String)
    (h : targetImageRepoOverrides.lookup bt = some s) :
    bt ∈ [BridgeHungryserv, BridgeSignalV2, BridgeSlackV2, BridgeTelegramV2] ∧
      TargetRepo bt registry = registry ++ s ∧
      TargetRepo bt registry ≠ Sprintf DefaultTargetRepoTemplate [registry, bt] ∧
      TargetRepo bt registry ≠ registry ++ "/bridge/" ++ bt := by
  have hr : TargetRepo bt registry = registry ++ s := by
    unfold TargetRepo
    rw [h]
  have hne : s ≠ "/bridge/" ++ bt ∧
      bt ∈ [BridgeHungryserv, BridgeSignalV2, BridgeSlackV2, BridgeTelegramV2] := by
    have hm := lookup_some_mem bt s _ h
    simp only [targetImageRepoOverrides, List.mem_cons, Prod.mk.injEq, List.mem_nil_iff,
      or_false] at hm
    rcases hm with h | h | h | h <;> obtain ⟨rfl, rfl⟩ := h <;> decide
  have hd : registry ++ s ≠ registry ++ "/bridge/" ++ bt := by
    intro he
    rw [String.append_assoc] at he
    exact hne.1 (string_append_right_cancel _ _ _ he)
  refine ⟨hne.2, hr, ?_, ?_⟩
  · rw [hr, sprintf_default]
    exact hd
  · rw [hr]
    exact hd

theorem targetRepo_override_witness :
    targetImageRepoOverrides.lookup BridgeSignalV2 = some "/bridge/signal" ∧
      TargetRepo BridgeSignalV2 "ghcr.io/beeper" = "ghcr.io/beeper/bridge/signal" ∧
      TargetRepo BridgeSignalV2 "ghcr.io/beeper" ≠ "ghcr.io/beeper/bridge/signalv2" :=
  ⟨by decide,
    (targetRepo_override BridgeSignalV2 "/bridge/signal" "ghcr.io/beeper" (by decide)).2.1,
    (targetRepo_override BridgeSignalV2 "/bridge/signal" "ghcr.io/beeper"
      (by decide)).2.2.2⟩

/-- C10: every suffix in the target-repo override table begins with a slash, and for
every BridgeType value and every registry the result of TargetRepo starts with the
registry immediately followed by a slash. -/
theorem targetRepo_starts_with_registry_slash :
    (∀ p ∈ targetImageRepoOverrides, p.2.data.head? = some '/') ∧
      ∀ (bt : BridgeType) (registry : String),
        (registry ++ "/").data <+: (TargetRepo bt registry).data := by
  refine ⟨by decide, fun bt registry => ?_⟩
  cases hl : targetImageRepoOverrides.lookup bt with
  | none =>
    have hr : TargetRepo bt registry = registry ++ "/bridge/" ++ bt := by
      unfold TargetRepo
      rw [hl]
      exact sprintf_default registry bt
    rw [hr]
    exact ⟨("bridge/" ++ bt).data, by simp⟩
  | some s =>
    have hr : TargetRepo bt registry = registry ++ s := by
      unfold TargetRepo
      rw [hl]
    have hm := lookup_some_mem bt s _ hl
    simp only [targetImageRepoOverrides, List.mem_cons, Prod.mk.injEq, List.mem_nil_iff,
      or_false] at hm
    rw [hr]
    rcases hm with h | h | h | h <;> obtain ⟨rfl, rfl⟩ := h
    · exact ⟨"hungryserv".data, by simp⟩
    · exact ⟨"bridge/signal".data, by simp⟩
    · exact ⟨"bridge/slackgo".data, by simp⟩
    · exact ⟨"bridge/telegramgo".data, by simp⟩

/-! ## Invariants of the notification table -/

/-- The keys the notification table binds to an empty sequence. -/
theorem empty_sequence_keys (bt : BridgeType)
    (h : bridgeNotifications.lookup bt = some []) :
    bt = BridgeSignal ∨ bt = BridgeSlack ∨ bt = BridgeDummyWebsocket := by
  have hm := lookup_some_mem bt [] _ h
  simp only [bridgeNotifications, List.mem_cons, Prod.mk.injEq, List.mem_nil_iff,
    or_false] at hm
  rcases hm with h | h | h | h | h | h | h | h | h | h | h | h | h | h | h | h | h | h |
    h | h | h <;> obtain ⟨rfl, hl⟩ := h <;>
    first
      | exact absurd hl (by decide)
      | exact Or.inl rfl
      | exact Or.inr (Or.inl rfl)
      | exact Or.inr (Or.inr rfl)

/-- C11: whenever NotificationTargets succeeds, the returned sequence is non-empty,
every element's Environment is one of development, staging, production, and every
element's Channel is one of stable, nightly, internal. -/
theorem notificationTargets_nonempty_valid (bt : BridgeType)
    (l : List BridgeUpdateNotification) (h : NotificationTargets bt = .ok l) :
    l ≠ [] ∧ ∀ e ∈ l,
      e.Environment ∈ [EnvDevelopment, EnvStaging, EnvProduction] ∧
        e.Channel ∈ [ChannelStable, ChannelNightly, ChannelInternal] := by
  have hl := notificationTargets_ok_lookup bt l h
  have hm := lookup_some_mem bt l _ hl
  constructor
  · intro hnil
    subst hnil
    unfold NotificationTargets at h
    rw [hl] at h
    exact absurd h (by simp)
  · simp only [bridgeNotifications, List.mem_cons, Prod.mk.injEq, List.mem_nil_iff,
      or_false] at hm
    rcases hm with h | h | h | h | h | h | h | h | h | h | h | h | h | h | h | h | h | h |
      h | h | h <;> obtain ⟨rfl, rfl⟩ := h <;> decide

theorem notificationTargets_nonempty_valid_witness :
    NotificationTargets BridgeDummy = .ok
        [ { Environment := EnvDevelopment, Channel := ChannelStable },
          { Environment := EnvDevelopment, Channel := ChannelStable,
            Bridge := BridgeDummyWebsocket },
          { Environment := EnvStaging, Channel := ChannelStable },
          { Environment := EnvStaging, Channel := ChannelStable,
            Bridge := BridgeDummyWebsocket } ] ∧
      EnvStaging ∈ [EnvDevelopment, EnvStaging, EnvProduction] :=
  ⟨by decide,
    ((notificationTargets_nonempty_valid BridgeDummy
      [ { Environment := EnvDevelopment, Channel := ChannelStable },
        { Environment := EnvDevelopment, Channel := ChannelStable,
          Bridge := BridgeDummyWebsocket },
        { Environment := EnvStaging, Channel := ChannelStable },
        { Environment := EnvStaging, Channel := ChannelStable,
          Bridge := BridgeDummyWebsocket } ] (by decide)).2
      { Environment := EnvStaging, Channel := ChannelStable } (by decide)).1⟩

/-- C12: every BridgeType that the notification table binds to an empty sequence is a
pass-through: the sequence of some other key contains an entry whose override bridge
is that BridgeType. -/
theorem empty_sequence_is_pass_through (bt : BridgeType)
    (h : bridgeNotifications.lookup bt = some []) :
    ∃ k l e, k ≠ bt ∧ bridgeNotifications.lookup k = some l ∧ e ∈ l ∧ e.Bridge = bt := by
  rcases empty_sequence_keys bt h with rfl | rfl | rfl
  · exact ⟨BridgeSignalV2, _, ⟨EnvDevelopment, ChannelStable, BridgeSignal, false⟩,
      by decide, rfl, by decide, rfl⟩
  · exact ⟨BridgeSlackV2, _, ⟨EnvDevelopment, ChannelStable, BridgeSlack, false⟩,
      by decide, rfl, by decide, rfl⟩
  · exact ⟨BridgeDummy, _, ⟨EnvDevelopment, ChannelStable, BridgeDummyWebsocket, false⟩,
      by decide, rfl, by decide, rfl⟩

theorem empty_sequence_is_pass_through_witness :
    bridgeNotifications.lookup BridgeSignal = some [] ∧
      ∃ k l e, k ≠ BridgeSignal ∧ bridgeNotifications.lookup k = some l ∧ e ∈ l ∧
        e.Bridge = BridgeSignal :=
  ⟨by decide, empty_sequence_is_pass_through BridgeSignal (by decide)⟩

/-- C13, as stated, fails: dummybridgews is bound to an empty sequence, and no entry
of the table that names it as override bridge has DeployNext set (the entries of
dummybridge that name it have DeployNext false). -/
theorem dummybridgews_not_deploy_next :
    bridgeNotifications.lookup BridgeDummyWebsocket = some [] ∧
      ∀ p ∈ bridgeNotifications, ∀ e ∈ p.2,
        e.Bridge = BridgeDummyWebsocket → e.DeployNext = false := by
  decide

/-- C13, amended: every BridgeType that the notification table binds to an empty
sequence is pointed at by an override of another key; for signal and slackgo such an
entry has DeployNext set, and dummybridgews is the one for which it has not. -/
theorem empty_sequence_pointed_at (bt : BridgeType)
    (h : bridgeNotifications.lookup bt = some []) :
    ∃ k l e, k ≠ bt ∧ bridgeNotifications.lookup k = some l ∧ e ∈ l ∧ e.Bridge = bt ∧
      e.DeployNext = !(bt == BridgeDummyWebsocket) := by
  rcases empty_sequence_keys bt h with rfl | rfl | rfl
  · exact ⟨BridgeSignalV2, _, ⟨EnvProduction, ChannelInternal, BridgeSignal, true⟩,
      by decide, rfl, by decide, rfl,
      by decide⟩
  · exact ⟨BridgeSlackV2, _, ⟨EnvProduction, ChannelInternal, BridgeSlack, true⟩,
      by decide, rfl, by decide, rfl,
      by decide⟩
  · exact ⟨BridgeDummy, _, ⟨EnvDevelopment, ChannelStable, BridgeDummyWebsocket, false⟩,
      by decide, rfl, by decide, rfl, by decide⟩

theorem empty_sequence_pointed_at_witness :
    bridgeNotifications.lookup BridgeSlack = some [] ∧
      ∃ k l e, k ≠ BridgeSlack ∧ bridgeNotifications.lookup k = some l ∧ e ∈ l ∧
        e.Bridge = BridgeSlack ∧ e.DeployNext = true :=
  ⟨by decide, empty_sequence_pointed_at BridgeSlack (by decide)⟩

/-- C15: of the 23 declared BridgeType constants, NotificationTargets halts with the
fatal error on exactly five, namely signal, slackgo and dummybridgews, which the table
binds to an empty sequence, and facebookgo and instagramgo, which are absent from the
table; it succeeds on the other 18. -/
theorem notificationTargets_fatal_constants :
    declaredBridgeTypes.length = 23 ∧ declaredBridgeTypes.Nodup ∧
      declaredBridgeTypes.filter
          (fun bt => decide (NotificationTargets bt = .error (.noNotifications bt))) =
        [BridgeFacebookGo, BridgeSignal, BridgeInstagramGo, BridgeSlack,
          BridgeDummyWebsocket] ∧
      declaredBridgeTypes.filter (fun bt => (NotificationTargets bt).isOk) =
        [BridgeTelegram, BridgeTelegramV2, BridgeWhatsApp, BridgeFacebook,
          BridgeGoogleChat, BridgeGroupMe, BridgeTwitter, BridgeSignalV2, BridgeInstagram,
          BridgeMeta, BridgeDiscord, BridgeSlackV2, BridgeGoogleMessages, BridgeLinkedIn,
          BridgeiMessageCloud, BridgeiMessagego, BridgeHungryserv, BridgeDummy] ∧
      bridgeNotifications.lookup BridgeSignal = some [] ∧
      bridgeNotifications.lookup BridgeSlack = some [] ∧
      bridgeNotifications.lookup BridgeDummyWebsocket = some [] ∧
      bridgeNotifications.lookup BridgeFacebookGo = none ∧
      bridgeNotifications.lookup BridgeInstagramGo = none := by
  decide

/-- Every entry of the table that names an override bridge names one that differs
from the entry's key and on which `NotificationTargets` ends in the fatal exit. -/
theorem override_bridges_fatal :
    ∀ p ∈ bridgeNotifications, ∀ e ∈ p.2, e.Bridge ≠ "" →
      e.Bridge ≠ p.1 ∧
        NotificationTargets e.Bridge = .error (.noNotifications e.Bridge) := by
  decide

/-- C16: an override bridge named by an entry of the notification table is never
itself a primary target: for every key k and every entry of the sequence of k with a
non-empty override bridge b, b differs from k and NotificationTargets of b halts with
the fatal error. -/
theorem override_bridge_not_primary (k : BridgeType) (l : List BridgeUpdateNotification)
    (e : BridgeUpdateNotification) (hl : bridgeNotifications.lookup k = some l)
    (he : e ∈ l) (hb : e.Bridge ≠ "") :
    e.Bridge ≠ k ∧ NotificationTargets e.Bridge = .error (.noNotifications e.Bridge) :=
  override_bridges_fatal (k, l) (lookup_some_mem k l _ hl) e he hb

theorem override_bridge_not_primary_witness :
    bridgeNotifications.lookup BridgeMeta =
        some [⟨EnvDevelopment, ChannelStable, BridgeFacebookGo, false⟩,
          ⟨EnvStaging, ChannelStable, BridgeFacebookGo, false⟩,
          ⟨EnvProduction, ChannelInternal, BridgeFacebookGo, true⟩,
          ⟨EnvDevelopment, ChannelStable, BridgeInstagramGo, false⟩,
          ⟨EnvStaging, ChannelStable, BridgeInstagramGo, false⟩,
          ⟨EnvProduction, ChannelInternal, BridgeInstagramGo, true⟩] ∧
      BridgeInstagramGo ≠ BridgeMeta ∧
      NotificationTargets BridgeInstagramGo = .error (.noNotifications BridgeInstagramGo) :=
  ⟨by decide,
    override_bridge_not_primary BridgeMeta
      [⟨EnvDevelopment, ChannelStable, BridgeFacebookGo, false⟩,
        ⟨EnvStaging, ChannelStable, BridgeFacebookGo, false⟩,
        ⟨EnvProduction, ChannelInternal, BridgeFacebookGo, true⟩,
        ⟨EnvDevelopment, ChannelStable, BridgeInstagramGo, false⟩,
        ⟨EnvStaging, ChannelStable, BridgeInstagramGo, false⟩,
        ⟨EnvProduction, ChannelInternal, BridgeInstagramGo, true⟩]
      ⟨EnvStaging, ChannelStable, BridgeInstagramGo, false⟩ (by decide) (by decide)
      (by decide)⟩

/-- C17: every entry of the notification table, in the shared default list and in
every per-bridge list, has the channel internal exactly when its environment is
production and the channel stable otherwise, so nightly is never used, and every
production entry has DeployNext set. -/
theorem entries_channel_follows_environment :
    (∀ e ∈ defaultNotifications, channelFollowsEnvironment e) ∧
      ∀ p ∈ bridgeNotifications, ∀ e ∈ p.2, channelFollowsEnvironment e := by
  decide

/-! ## Totality of `FormatImage`, and its dependence on the image -/

/-- Once the selected template parses, `FormatImage` returns what executing the nodes
writes. -/
theorem formatImage_of_parse (bt : BridgeType) (image commit : String) (nodes : List Node)
    (h : Parse (templateString bt) = .ok nodes) :
    Execute nodes [("Image", image), ("Commit", commit)] =
        .ok ((nodes.map (execNode [("Image", image), ("Commit", commit)])).flatten) ∧
      FormatImage bt image commit =
        .ok (String.mk
          ((nodes.map (execNode [("Image", image), ("Commit", commit)])).flatten)) := by
  simp [FormatImage, h, Execute]

/-- C14: FormatImage never reaches its fatal path: for every BridgeType value and all
strings image and commit, the selected template parses, its substitution points are
named Image or Commit only, executing it succeeds, and FormatImage returns the
string that was written. -/
theorem formatImage_total (bt : BridgeType) (image commit : String) :
    ∃ nodes out, Parse (templateString bt) = .ok nodes ∧
      (∀ name ∈ placeholders nodes, name = "Image" ∨ name = "Commit") ∧
      Execute nodes [("Image", image), ("Commit", commit)] = .ok out ∧
      FormatImage bt image commit = .ok (String.mk out) := by
  rcases templateString_cases bt with ⟨_, ht⟩ | ⟨_, ht⟩ | ⟨_, ht⟩ | ⟨_, ht⟩
  · have hp : Parse (templateString bt) = .ok _ := ht ▸ parse_default
    exact ⟨_, _, hp, by decide, (formatImage_of_parse bt image commit _ hp).1,
      (formatImage_of_parse bt image commit _ hp).2⟩
  · have hp : Parse (templateString bt) = .ok _ := ht ▸ parse_plain
    exact ⟨_, _, hp, by decide, (formatImage_of_parse bt image commit _ hp).1,
      (formatImage_of_parse bt image commit _ hp).2⟩
  · have hp : Parse (templateString bt) = .ok _ := ht ▸ parse_commit
    exact ⟨_, _, hp, by decide, (formatImage_of_parse bt image commit _ hp).1,
      (formatImage_of_parse bt image commit _ hp).2⟩
  · have hp : Parse (templateString bt) = .ok _ := ht ▸ parse_v2
    exact ⟨_, _, hp, by decide, (formatImage_of_parse bt image commit _ hp).1,
      (formatImage_of_parse bt image commit _ hp).2⟩

/-- C19: for imessagecloud FormatImage ignores its image argument and returns the
commit; for every other BridgeType value FormatImage is injective in image for a
fixed commit. -/
theorem formatImage_image_dependence :
    (∀ image commit : String, FormatImage BridgeiMessageCloud image commit = .ok commit) ∧
      ∀ (bt : BridgeType) (commit i1 i2 : String), bt ≠ BridgeiMessageCloud →
        FormatImage bt i1 commit = FormatImage bt i2 commit → i1 = i2 := by
  refine ⟨fun image commit =>
    (formatImage_of_template BridgeiMessageCloud image commit).2.2.1 (by decide), ?_⟩
  intro bt commit i1 i2 hne h
  have f1 := formatImage_of_template bt i1 commit
  have f2 := formatImage_of_template bt i2 commit
  rcases templateString_cases bt with ⟨_, ht⟩ | ⟨_, ht⟩ | ⟨hb, _⟩ | ⟨_, ht⟩
  · rw [f1.1 ht, f2.1 ht] at h
    have h1 := string_append_left_cancel _ _ _ (Except.ok.inj h)
    have h2 := string_append_left_cancel _ _ _ h1
    exact string_append_left_cancel _ _ _ h2
  · rw [f1.2.1 ht, f2.2.1 ht] at h
    have h1 := string_append_left_cancel _ _ _ (Except.ok.inj h)
    exact string_append_left_cancel _ _ _ h1
  · exact absurd hb hne
  · rw [f1.2.2.2 ht, f2.2.2.2 ht] at h
    have h1 := string_append_left_cancel _ _ _ (Except.ok.inj h)
    have h2 := string_append_left_cancel _ _ _ h1
    exact string_append_left_cancel _ _ _ h2

theorem formatImage_image_dependence_witness :
    FormatImage BridgeiMessageCloud "img" "abc123" = .ok "abc123" ∧
      FormatImage BridgeiMessageCloud "other" "abc123" = .ok "abc123" ∧
      BridgeGroupMe ≠ BridgeiMessageCloud ∧
      FormatImage BridgeGroupMe "img" "abc123" = .ok "img:abc123" ∧
      "img" = "img" :=
  ⟨formatImage_image_dependence.1 "img" "abc123",
    formatImage_image_dependence.1 "other" "abc123", by decide, by decide,
    formatImage_image_dependence.2 BridgeGroupMe "abc123" "img" "img" (by decide) rfl⟩

/-! ## Agreement of the target-repo overrides with the notification overrides -/

/-- C18: for every BridgeType k that has a target-repo override and whose
notification entries name an override bridge b, which is signalv2 with signal and
slackgov2 with slackgo, TargetRepo of k and TargetRepo of b are equal for every
registry. -/
theorem targetRepo_agrees_with_notification_override (k : BridgeType) (s : String)
    (l : List BridgeUpdateNotification) (e : BridgeUpdateNotification)
    (registry : String) (hs : targetImageRepoOverrides.lookup k = some s)
    (hl : bridgeNotifications.lookup k = some l) (he : e ∈ l) (hb : e.Bridge ≠ "") :
    TargetRepo k registry = TargetRepo e.Bridge registry ∧
      ((k = BridgeSignalV2 ∧ e.Bridge = BridgeSignal) ∨
        (k = BridgeSlackV2 ∧ e.Bridge = BridgeSlack)) := by
  have hm := lookup_some_mem k s _ hs
  simp only [targetImageRepoOverrides, List.mem_cons, Prod.mk.injEq, List.mem_nil_iff,
    or_false] at hm
  rcases hm with h | h | h | h <;> obtain ⟨rfl, rfl⟩ := h
  · have h2 : bridgeNotifications.lookup BridgeHungryserv = some defaultNotifications := by
      decide
    rw [h2] at hl
    have hd : ∀ x ∈ defaultNotifications, x.Bridge = "" := by decide
    exact absurd (hd e (Option.some.inj hl ▸ he)) hb
  · have h2 : bridgeNotifications.lookup BridgeSignalV2 =
        some [⟨EnvDevelopment, ChannelStable, BridgeSignal, false⟩,
          ⟨EnvStaging, ChannelStable, BridgeSignal, false⟩,
          ⟨EnvProduction, ChannelInternal, BridgeSignal, true⟩] := by
      decide
    rw [h2] at hl
    have hd : ∀ x ∈ [(⟨EnvDevelopment, ChannelStable, BridgeSignal, false⟩ :
          BridgeUpdateNotification),
        ⟨EnvStaging, ChannelStable, BridgeSignal, false⟩,
        ⟨EnvProduction, ChannelInternal, BridgeSignal, true⟩],
        x.Bridge = BridgeSignal := by decide
    have hx : e.Bridge = BridgeSignal := hd e (Option.some.inj hl ▸ he)
    refine ⟨?_, Or.inl ⟨rfl, hx⟩⟩
    have h1 : targetImageRepoOverrides.lookup BridgeSignal = none := by decide
    rw [hx]
    simp only [TargetRepo, hs, h1, sprintf_default]
    rw [String.append_assoc]
    rfl
  · have h2 : bridgeNotifications.lookup BridgeSlackV2 =
        some [⟨EnvDevelopment, ChannelStable, BridgeSlack, false⟩,
          ⟨EnvStaging, ChannelStable, BridgeSlack, false⟩,
          ⟨EnvProduction, ChannelInternal, BridgeSlack, true⟩] := by
      decide
    rw [h2] at hl
    have hd : ∀ x ∈ [(⟨EnvDevelopment, ChannelStable, BridgeSlack, false⟩ :
          BridgeUpdateNotification),
        ⟨EnvStaging, ChannelStable, BridgeSlack, false⟩,
        ⟨EnvProduction, ChannelInternal, BridgeSlack, true⟩],
        x.Bridge = BridgeSlack := by decide
    have hx : e.Bridge = BridgeSlack := hd e (Option.some.inj hl ▸ he)
    refine ⟨?_, Or.inr ⟨rfl, hx⟩⟩
    have h1 : targetImageRepoOverrides.lookup BridgeSlack = none := by decide
    rw [hx]
    simp only [TargetRepo, hs, h1, sprintf_default]
    rw [String.append_assoc]
    rfl
  · have h2 : bridgeNotifications.lookup BridgeTelegramV2 = some defaultNotifications := by
      decide
    rw [h2] at hl
    have hd : ∀ x ∈ defaultNotifications, x.Bridge = "" := by decide
    exact absurd (hd e (Option.some.inj hl ▸ he)) hb

theorem targetRepo_agrees_with_notification_override_witness :
    targetImageRepoOverrides.lookup BridgeSlackV2 = some "/bridge/slackgo" ∧
      TargetRepo BridgeSlackV2 "ghcr.io/beeper" = "ghcr.io/beeper/bridge/slackgo" ∧
      TargetRepo BridgeSlackV2 "ghcr.io/beeper" = TargetRepo BridgeSlack "ghcr.io/beeper" :=
  ⟨by decide, by decide,
    (targetRepo_agrees_with_notification_override BridgeSlackV2 "/bridge/slackgo"
      [⟨EnvDevelopment, ChannelStable, BridgeSlack, false⟩,
        ⟨EnvStaging, ChannelStable, BridgeSlack, false⟩,
        ⟨EnvProduction, ChannelInternal, BridgeSlack, true⟩]
      ⟨EnvProduction, ChannelInternal, BridgeSlack, true⟩ "ghcr.io/beeper" (by decide)
      (by decide) (by decide) (by decide)).1⟩

end Bridges
